import Mathlib

/-!
Verification of the CloudFormation provisioning script `CreateLambda.py`.

The script is shallowly embedded as follows.  Every call the script makes to
the AWS SDK (boto3) is recorded as an `Event`; the outcome of each call
(accepted, provider error, waiter timeout, ...) is supplied by an `Env`
oracle, and the contents of the two S3 buckets the script manipulates are
threaded through as an `S3State`.  Each embedded function returns an
`Outcome`: the Python-level result (`Except PyExn Int`: either a normal
return value or an uncaught exception) together with the trace of issued
calls, each paired with the bucket state at the moment the call was issued.

A Python-semantics point that matters throughout: the script's error
handlers execute `print('ERROR: ' + e)` where `e` is the caught exception
object.  In Python 3, `str + Exception` raises `TypeError`, so those
handlers never print and never reach their `return -1`; the `TypeError`
propagates out of the enclosing function.  The only handlers that work are
the ones concatenating `e.response['Error']['Message']` (a `str`), i.e. the
`AlreadyExistsException` branches.  The embedding reproduces this.
-/

namespace CreateLambda

/-- Python exceptions that can propagate out of the embedded functions. -/
inductive PyExn where
  | typeError
  | clientError (code : String) (msg : String)
  | waiterError (reason : String)
deriving DecidableEq, Repr

/-- How a CloudFormation template is supplied to `create_stack`:
inline document (`TemplateBody=` argument) or remote reference
(`TemplateURL=` argument). -/
inductive TemplateSource where
  | body (doc : String)
  | url (address : String)
deriving DecidableEq, Repr

/-- One call issued by the script (to the console or to AWS). -/
inductive Event where
  | printMsg (msg : String)
  | createStack (stackName : String) (source : TemplateSource) (capabilities : List String)
  | waitCreate (stackName : String) (delay : Nat) (maxAttempts : Nat)
  | uploadFile (localPath : String) (bucket : String) (key : String)
  | deleteStackReq (stackName : String)
  | waitDelete (stackName : String) (delay : Nat) (maxAttempts : Nat)
  | listObjectsV2 (bucket : String)
  | deleteObjects (bucket : String) (keys : List String)
  | describeResources (stackName : String)
deriving DecidableEq, Repr

/-- The object keys currently present in the two buckets the script uses. -/
structure S3State where
  bootstrapKeys : List String
  lambdaKeys : List String
deriving DecidableEq, Repr

/-- Oracle fixing the outcome of every external call.  `none` means the call
returned normally, `some e` means it raised `e`.  Waiter outcomes are
booleans: `false` means the waiter raised `WaiterError`. -/
structure Env where
  createStackOutcome : String → Option PyExn
  waitCreateOk : String → Bool
  uploadOutcome : String → String → Option PyExn
  deleteReqOutcome : String → Option PyExn
  waitDeleteOk : String → Bool
  listOutcome : String → Option PyExn
  deleteObjectsOutcome : String → List String → Option PyExn

/-- Result of running an embedded function: the Python return value or the
uncaught exception, the trace of issued calls (each paired with the bucket
state at issue time), and the final bucket state. -/
structure Outcome where
  res : Except PyExn Int
  trace : List (Event × S3State)
  state : S3State

----------------------------------------------------------------------
-- Constants (src/CreateLambda.py lines 38-86)

def VERSION : String := "v0.21"

def CF_STACKNAME_LAMBDA : String := "LambdaFunction"

def CF_STACKNAME_LAMBDA_S3 : String := "LambdaS3Bucket"

def CF_STACKNAME_BOOTSTRAP_S3 : String := "BootstrapS3Bucket"

def CF_LAMBDA_S3_BUCKET_NAME : String := "generic-lambda-functions-01234"

def CF_BOOTSTRAP_S3_BUCKET_NAME : String := "generic-bootstrap-bucket-01234"

def CF_LAMBDA_SOURCE : String := "test.zip"

def CF_TEMPLATE_S3 : String := "CreateS3Bucket.yaml"

def CF_TEMPLATE_LAMBDA : String := "CreateLambdaFunction.yaml"

/-- The inline bootstrap template (lines 56-86), with the Python format
placeholder kept literally; it is substituted by `formatBootstrapTemplate`. -/
def CF_TEMPLATE_BOOTSTRAP_S3 : String :=
  "---\nResources:\n  DocS3BootstrapBucket:\n    Type: AWS::S3::Bucket\n    Properties:\n      BucketName: {bucketName}\n      Tags:\n        - Key: \"Documentation\"\n          Value: \"Documentation\"\n\n  # Allow CF templates to perform all S3 operations on this bucket\n  DocBucketAccessPolicy:\n    Type: AWS::S3::BucketPolicy\n    Properties:\n      Bucket:\n        Ref: \"DocS3BootstrapBucket\"\n      PolicyDocument:\n        Statement:\n          - Action: \"*\"\n            Effect: \"Allow\"\n            Resource:\n              Fn::Join:\n              - \"\"\n              - - \"arn:aws:s3:::\"\n                - Ref: \"DocS3BootstrapBucket\"\n                - \"/*\"\n            Principal:\n              Service:\n              - cloudformation.amazonaws.com\n"

/-- Python `CF_TEMPLATE_BOOTSTRAP_S3.format(bucketName=...)` (line 112). -/
def formatBootstrapTemplate (bucketName : String) : String :=
  CF_TEMPLATE_BOOTSTRAP_S3.replace "{bucketName}" bucketName

/-- Effect of a successful `upload_file` on a bucket key set: the key is
present afterwards (overwriting any existing object at that key). -/
def insertKey (k : String) (ks : List String) : List String :=
  if k ∈ ks then ks else ks ++ [k]

/-- Effect of a successful `delete_objects` batch: the listed keys are
removed from the bucket key set. -/
def removeKeys (listed : List String) (ks : List String) : List String :=
  ks.filter (fun k => !(decide (k ∈ listed)))

----------------------------------------------------------------------
-- create_s3_bucket (src/CreateLambda.py lines 105-183)

/-- Shallow embedding of `create_s3_bucket` (lines 105-183): create the
bootstrap storage stack from the inline template body, wait (Delay 5,
MaxAttempts 12), upload `CreateS3Bucket.yaml` into the bootstrap bucket,
create the build storage stack from a TemplateURL pointing at that object,
wait (Delay 5, MaxAttempts 12), upload `CreateLambdaFunction.yaml` into the
build bucket, return 0.  Error handling mirrors the source: an
`AlreadyExistsException` client error prints the short provider message and
returns -1; every other handler evaluates `'ERROR: ' + e` and therefore
raises `TypeError`; a non-ClientError exception from a call wrapped in
`except ClientError` (and any exception from an unwrapped call) propagates. -/
def create_s3_bucket (env : Env) (s0 : S3State) : Outcome :=
  let t1 : List (Event × S3State) :=
    [(Event.printMsg ("Creating CloudFormation stack: " ++ CF_STACKNAME_BOOTSTRAP_S3 ++
        ", S3 bucket: " ++ CF_BOOTSTRAP_S3_BUCKET_NAME ++ "..."), s0),
     (Event.createStack CF_STACKNAME_BOOTSTRAP_S3
        (TemplateSource.body (formatBootstrapTemplate CF_BOOTSTRAP_S3_BUCKET_NAME)) [], s0)]
  match env.createStackOutcome CF_STACKNAME_BOOTSTRAP_S3 with
  | some (PyExn.clientError code msg) =>
      if code = "AlreadyExistsException" then
        { res := Except.ok (-1),
          trace := t1 ++ [(Event.printMsg ("ERROR: " ++ msg), s0)], state := s0 }
      else
        { res := Except.error PyExn.typeError, trace := t1, state := s0 }
  | some e => { res := Except.error e, trace := t1, state := s0 }
  | none =>
      let t2 := t1 ++ [(Event.waitCreate CF_STACKNAME_BOOTSTRAP_S3 5 12, s0)]
      if env.waitCreateOk CF_STACKNAME_BOOTSTRAP_S3 then
        let t3 := t2 ++
          [(Event.printMsg ("Uploading " ++ CF_TEMPLATE_S3 ++ " to " ++
              CF_BOOTSTRAP_S3_BUCKET_NAME ++ " bucket..."), s0),
           (Event.uploadFile CF_TEMPLATE_S3 CF_BOOTSTRAP_S3_BUCKET_NAME CF_TEMPLATE_S3, s0)]
        match env.uploadOutcome CF_BOOTSTRAP_S3_BUCKET_NAME CF_TEMPLATE_S3 with
        | some (PyExn.clientError _ _) =>
            { res := Except.error PyExn.typeError, trace := t3, state := s0 }
        | some e => { res := Except.error e, trace := t3, state := s0 }
        | none =>
            let s1 := { s0 with bootstrapKeys := insertKey CF_TEMPLATE_S3 s0.bootstrapKeys }
            let t4 := t3 ++
              [(Event.printMsg ("Creating CloudFormation stack: " ++ CF_STACKNAME_LAMBDA_S3 ++
                  ", S3 bucket: " ++ CF_LAMBDA_S3_BUCKET_NAME ++ "..."), s1),
               (Event.createStack CF_STACKNAME_LAMBDA_S3
                  (TemplateSource.url ("https://s3.amazonaws.com/" ++
                     CF_BOOTSTRAP_S3_BUCKET_NAME ++ "/" ++ CF_TEMPLATE_S3)) [], s1)]
            match env.createStackOutcome CF_STACKNAME_LAMBDA_S3 with
            | some (PyExn.clientError code msg) =>
                if code = "AlreadyExistsException" then
                  { res := Except.ok (-1),
                    trace := t4 ++ [(Event.printMsg ("ERROR: " ++ msg), s1)], state := s1 }
                else
                  { res := Except.error PyExn.typeError, trace := t4, state := s1 }
            | some e => { res := Except.error e, trace := t4, state := s1 }
            | none =>
                let t5 := t4 ++ [(Event.waitCreate CF_STACKNAME_LAMBDA_S3 5 12, s1)]
                if env.waitCreateOk CF_STACKNAME_LAMBDA_S3 then
                  let t6 := t5 ++
                    [(Event.printMsg ("Uploading " ++ CF_TEMPLATE_LAMBDA ++ " to " ++
                        CF_LAMBDA_S3_BUCKET_NAME ++ " bucket..."), s1),
                     (Event.uploadFile CF_TEMPLATE_LAMBDA CF_LAMBDA_S3_BUCKET_NAME
                        CF_TEMPLATE_LAMBDA, s1)]
                  match env.uploadOutcome CF_LAMBDA_S3_BUCKET_NAME CF_TEMPLATE_LAMBDA with
                  | some (PyExn.clientError _ _) =>
                      { res := Except.error PyExn.typeError, trace := t6, state := s1 }
                  | some e => { res := Except.error e, trace := t6, state := s1 }
                  | none =>
                      let s2 := { s1 with
                        lambdaKeys := insertKey CF_TEMPLATE_LAMBDA s1.lambdaKeys }
                      { res := Except.ok 0, trace := t6, state := s2 }
                else
                  { res := Except.error PyExn.typeError, trace := t5, state := s1 }
      else
        { res := Except.error PyExn.typeError, trace := t2, state := s0 }

----------------------------------------------------------------------
-- create_lambda (src/CreateLambda.py lines 192-233)

/-- Shallow embedding of `create_lambda` (lines 192-233): upload `test.zip`
into the build bucket, create the `LambdaFunction` stack via TemplateURL
with `Capabilities=['CAPABILITY_IAM']`, wait (Delay 5, MaxAttempts 24),
return 0.  Error handling as in `create_s3_bucket`. -/
def create_lambda (env : Env) (s0 : S3State) : Outcome :=
  let t1 : List (Event × S3State) :=
    [(Event.printMsg ("Uploading " ++ CF_LAMBDA_SOURCE ++ " to " ++
        CF_LAMBDA_S3_BUCKET_NAME ++ " bucket..."), s0),
     (Event.uploadFile CF_LAMBDA_SOURCE CF_LAMBDA_S3_BUCKET_NAME CF_LAMBDA_SOURCE, s0)]
  match env.uploadOutcome CF_LAMBDA_S3_BUCKET_NAME CF_LAMBDA_SOURCE with
  | some (PyExn.clientError _ _) =>
      { res := Except.error PyExn.typeError, trace := t1, state := s0 }
  | some e => { res := Except.error e, trace := t1, state := s0 }
  | none =>
      let s1 := { s0 with lambdaKeys := insertKey CF_LAMBDA_SOURCE s0.lambdaKeys }
      let t2 := t1 ++
        [(Event.printMsg ("Creating CloudFormation stack: " ++ CF_STACKNAME_LAMBDA ++ "..."), s1),
         (Event.createStack CF_STACKNAME_LAMBDA
            (TemplateSource.url ("https://s3.amazonaws.com/" ++
               CF_LAMBDA_S3_BUCKET_NAME ++ "/" ++ CF_TEMPLATE_LAMBDA))
            ["CAPABILITY_IAM"], s1)]
      match env.createStackOutcome CF_STACKNAME_LAMBDA with
      | some (PyExn.clientError code msg) =>
          if code = "AlreadyExistsException" then
            { res := Except.ok (-1),
              trace := t2 ++ [(Event.printMsg ("ERROR: " ++ msg), s1)], state := s1 }
          else
            { res := Except.error PyExn.typeError, trace := t2, state := s1 }
      | some e => { res := Except.error e, trace := t2, state := s1 }
      | none =>
          let t3 := t2 ++ [(Event.waitCreate CF_STACKNAME_LAMBDA 5 24, s1)]
          if env.waitCreateOk CF_STACKNAME_LAMBDA then
            { res := Except.ok 0, trace := t3, state := s1 }
          else
            { res := Except.error PyExn.typeError, trace := t3, state := s1 }

----------------------------------------------------------------------
-- delete_cf_stack (src/CreateLambda.py lines 241-261)

/-- Shallow embedding of `delete_cf_stack` (lines 241-261): optionally print,
issue `delete_stack` (not wrapped in try, so any exception propagates), then
wait for `stack_delete_complete`.  On `WaiterError`: with `verbose` the
handler evaluates `'ERROR: ' + e`, raising `TypeError`; without `verbose` it
returns -1.  On success returns 0. -/
def delete_cf_stack (env : Env) (s : S3State) (stack_name : String)
    (wait_delay : Nat) (wait_max_attempts : Nat) (verbose : Bool) : Outcome :=
  let t0 : List (Event × S3State) :=
    if verbose then
      [(Event.printMsg ("Deleting CloudFormation stack: " ++ stack_name ++ "..."), s)]
    else []
  let t1 := t0 ++ [(Event.deleteStackReq stack_name, s)]
  match env.deleteReqOutcome stack_name with
  | some e => { res := Except.error e, trace := t1, state := s }
  | none =>
      let t2 := t1 ++ [(Event.waitDelete stack_name wait_delay wait_max_attempts, s)]
      if env.waitDeleteOk stack_name then
        { res := Except.ok 0, trace := t2, state := s }
      else if verbose then
        { res := Except.error PyExn.typeError, trace := t2, state := s }
      else
        { res := Except.ok (-1), trace := t2, state := s }

----------------------------------------------------------------------
-- delete_cloudformation_stacks (src/CreateLambda.py lines 266-292)

/-- Bucket-emptying step for the bootstrap bucket (lines 272-276):
`list_objects_v2`, and when the key count is nonzero, one `delete_objects`
batch with exactly the listed keys.  No try/except anywhere in this block. -/
def empty_bootstrap (env : Env) (s : S3State) : Outcome :=
  let t1 : List (Event × S3State) := [(Event.listObjectsV2 CF_BOOTSTRAP_S3_BUCKET_NAME, s)]
  match env.listOutcome CF_BOOTSTRAP_S3_BUCKET_NAME with
  | some e => { res := Except.error e, trace := t1, state := s }
  | none =>
      if s.bootstrapKeys = [] then { res := Except.ok 0, trace := t1, state := s }
      else
        let t2 := t1 ++ [(Event.deleteObjects CF_BOOTSTRAP_S3_BUCKET_NAME s.bootstrapKeys, s)]
        match env.deleteObjectsOutcome CF_BOOTSTRAP_S3_BUCKET_NAME s.bootstrapKeys with
        | some e => { res := Except.error e, trace := t2, state := s }
        | none =>
            { res := Except.ok 0, trace := t2,
              state := { s with bootstrapKeys := removeKeys s.bootstrapKeys s.bootstrapKeys } }

/-- Bucket-emptying step for the lambda (build) bucket (lines 278-282). -/
def empty_lambda (env : Env) (s : S3State) : Outcome :=
  let t1 : List (Event × S3State) := [(Event.listObjectsV2 CF_LAMBDA_S3_BUCKET_NAME, s)]
  match env.listOutcome CF_LAMBDA_S3_BUCKET_NAME with
  | some e => { res := Except.error e, trace := t1, state := s }
  | none =>
      if s.lambdaKeys = [] then { res := Except.ok 0, trace := t1, state := s }
      else
        let t2 := t1 ++ [(Event.deleteObjects CF_LAMBDA_S3_BUCKET_NAME s.lambdaKeys, s)]
        match env.deleteObjectsOutcome CF_LAMBDA_S3_BUCKET_NAME s.lambdaKeys with
        | some e => { res := Except.error e, trace := t2, state := s }
        | none =>
            { res := Except.ok 0, trace := t2,
              state := { s with lambdaKeys := removeKeys s.lambdaKeys s.lambdaKeys } }

/-- First half of `delete_cloudformation_stacks` (lines 268-282): print the
banner and empty both buckets in order.  An exception from either block
propagates immediately. -/
def empty_buckets (env : Env) (s : S3State) : Outcome :=
  let p : List (Event × S3State) := [(Event.printMsg "Emptying all buckets...", s)]
  let o1 := empty_bootstrap env s
  match o1.res with
  | Except.error e => { res := Except.error e, trace := p ++ o1.trace, state := o1.state }
  | Except.ok _ =>
      let o2 := empty_lambda env o1.state
      { res := o2.res, trace := p ++ o1.trace ++ o2.trace, state := o2.state }

/-- Second half of `delete_cloudformation_stacks` (lines 284-292): the
short-circuiting `or` chain of the three stack deletions, LambdaFunction
(MaxAttempts 24) then LambdaS3Bucket then BootstrapS3Bucket (MaxAttempts 12
each), returning -1 on the first truthy (nonzero) result and 0 otherwise.
An exception from `delete_cf_stack` propagates. -/
def delete_stacks_phase (env : Env) (s : S3State) : Outcome :=
  let o1 := delete_cf_stack env s CF_STACKNAME_LAMBDA 5 24 true
  match o1.res with
  | Except.error e => { res := Except.error e, trace := o1.trace, state := o1.state }
  | Except.ok r1 =>
      if r1 ≠ 0 then { res := Except.ok (-1), trace := o1.trace, state := o1.state }
      else
        let o2 := delete_cf_stack env o1.state CF_STACKNAME_LAMBDA_S3 5 12 true
        match o2.res with
        | Except.error e =>
            { res := Except.error e, trace := o1.trace ++ o2.trace, state := o2.state }
        | Except.ok r2 =>
            if r2 ≠ 0 then
              { res := Except.ok (-1), trace := o1.trace ++ o2.trace, state := o2.state }
            else
              let o3 := delete_cf_stack env o2.state CF_STACKNAME_BOOTSTRAP_S3 5 12 true
              match o3.res with
              | Except.error e =>
                  { res := Except.error e, trace := o1.trace ++ o2.trace ++ o3.trace,
                    state := o3.state }
              | Except.ok r3 =>
                  if r3 ≠ 0 then
                    { res := Except.ok (-1), trace := o1.trace ++ o2.trace ++ o3.trace,
                      state := o3.state }
                  else
                    { res := Except.ok 0, trace := o1.trace ++ o2.trace ++ o3.trace,
                      state := o3.state }

/-- Shallow embedding of `delete_cloudformation_stacks` (lines 266-292):
empty both buckets, then run the deletion chain. -/
def delete_cloudformation_stacks (env : Env) (s : S3State) : Outcome :=
  let o1 := empty_buckets env s
  match o1.res with
  | Except.error e => { res := Except.error e, trace := o1.trace, state := o1.state }
  | Except.ok _ =>
      let o2 := delete_stacks_phase env o1.state
      { res := o2.res, trace := o1.trace ++ o2.trace, state := o2.state }

----------------------------------------------------------------------
-- __main__ (src/CreateLambda.py lines 297-371)

/-- How the process terminates: `exit(code)`, or an uncaught exception
(which makes the Python interpreter exit with a nonzero status). -/
inductive ProcResult where
  | exited (code : Int)
  | crashed (exn : PyExn)
deriving DecidableEq, Repr

/-- A process termination that the shell observes as failure. -/
def failureExit : ProcResult → Bool
  | ProcResult.exited c => c != 0
  | ProcResult.crashed _ => true

/-- The 48-character separator rule the splash screen prints. -/
def SPLASH_RULE : String := String.mk (List.replicate 48 (Char.ofNat 61))

/-- Splash banner printed at lines 300-302. -/
def splashTrace (s : S3State) : List (Event × S3State) :=
  [(Event.printMsg SPLASH_RULE, s),
   (Event.printMsg ("Create Lambda Function with CloudFormation " ++ VERSION), s),
   (Event.printMsg (SPLASH_RULE ++ "\n"), s)]

/-- Shallow embedding of the `__main__` block (lines 297-371).
`delete_stacks` is the parsed `-d`/`--delete` flag.  On the create path the
trailing resource-inspection block (lines 325-371, read-only reporting) is
represented by a single `describeResources` event followed by `exit(0)`. -/
def main_run (env : Env) (s0 : S3State) (delete_stacks : Bool) :
    ProcResult × List (Event × S3State) :=
  if delete_stacks then
    let o := delete_cloudformation_stacks env s0
    match o.res with
    | Except.error e => (ProcResult.crashed e, splashTrace s0 ++ o.trace)
    | Except.ok r =>
        (if r ≠ 0 then ProcResult.exited (-1) else ProcResult.exited 0,
         splashTrace s0 ++ o.trace)
  else
    let o1 := create_s3_bucket env s0
    match o1.res with
    | Except.error e => (ProcResult.crashed e, splashTrace s0 ++ o1.trace)
    | Except.ok r1 =>
        if r1 ≠ 0 then (ProcResult.exited (-1), splashTrace s0 ++ o1.trace)
        else
          let o2 := create_lambda env o1.state
          match o2.res with
          | Except.error e => (ProcResult.crashed e, splashTrace s0 ++ o1.trace ++ o2.trace)
          | Except.ok r2 =>
              if r2 ≠ 0 then (ProcResult.exited (-1), splashTrace s0 ++ o1.trace ++ o2.trace)
              else
                (ProcResult.exited 0,
                 splashTrace s0 ++ o1.trace ++ o2.trace ++
                   [(Event.describeResources CF_STACKNAME_LAMBDA, o2.state)])

----------------------------------------------------------------------
-- Trace observations

/-- Stack names of the `delete_stack` requests in a trace, in order. -/
def stackDeleteReqs (tr : List (Event × S3State)) : List String :=
  tr.filterMap (fun p =>
    match p.1 with
    | Event.deleteStackReq n => some n
    | _ => none)

/-- Key lists of the `delete_objects` batches issued against bucket `b`. -/
def deleteObjectsFor (b : String) (tr : List (Event × S3State)) : List (List String) :=
  tr.filterMap (fun p =>
    match p.1 with
    | Event.deleteObjects b2 ks => if b2 = b then some ks else none
    | _ => none)

/-- Number of `list_objects_v2` calls issued against bucket `b`. -/
def listCallsFor (b : String) (tr : List (Event × S3State)) : Nat :=
  (tr.filterMap (fun p =>
    match p.1 with
    | Event.listObjectsV2 b2 => if b2 = b then some b2 else none
    | _ => none)).length

/-- Whether a console message is one of the script's error reports (all of
them start with the five characters of the error prefix). -/
def isErrorMsg (m : String) : Bool := decide (m.data.take 5 = "ERROR".data)

/-- Console messages in a trace that start with the error prefix. -/
def errorPrints (tr : List (Event × S3State)) : List String :=
  tr.filterMap (fun p =>
    match p.1 with
    | Event.printMsg m => if isErrorMsg m then some m else none
    | _ => none)

/-- Whether an event is a `delete_stack` request. -/
def isStackDeleteReq : Event → Bool
  | Event.deleteStackReq _ => true
  | _ => false

/-- Whether an event is one of the bucket-emptying S3 operations. -/
def isBucketOp : Event → Bool
  | Event.listObjectsV2 _ => true
  | Event.deleteObjects _ _ => true
  | _ => false

/-- The calls a trace issues to AWS (console prints dropped). -/
def awsEvents (tr : List (Event × S3State)) : List Event :=
  (tr.map Prod.fst).filter (fun e =>
    match e with
    | Event.printMsg _ => false
    | _ => true)

/-- Number of `create_stack` calls for a given stack name in a trace. -/
def createStackCallsFor (n : String) (tr : List (Event × S3State)) : Nat :=
  (tr.filterMap (fun p =>
    match p.1 with
    | Event.createStack n2 _ _ => if n2 = n then some n2 else none
    | _ => none)).length

/-- Number of `upload_file` calls for a given local path in a trace. -/
def uploadCallsFor (f : String) (tr : List (Event × S3State)) : Nat :=
  (tr.filterMap (fun p =>
    match p.1 with
    | Event.uploadFile f2 _ _ => if f2 = f then some f2 else none
    | _ => none)).length

----------------------------------------------------------------------
-- Concrete environments and states used for evaluations and witnesses

/-- Environment in which every external call succeeds. -/
def envOk : Env :=
  { createStackOutcome := fun _ => none
    waitCreateOk := fun _ => true
    uploadOutcome := fun _ _ => none
    deleteReqOutcome := fun _ => none
    waitDeleteOk := fun _ => true
    listOutcome := fun _ => none
    deleteObjectsOutcome := fun _ _ => none }

/-- Both buckets empty. -/
def s3Empty : S3State := { bootstrapKeys := [], lambdaKeys := [] }

/-- Both buckets hold the artifacts a completed create run leaves behind. -/
def s3Two : S3State :=
  { bootstrapKeys := ["CreateS3Bucket.yaml"]
    lambdaKeys := ["CreateLambdaFunction.yaml", "test.zip"] }

/-- Every call succeeds except that the `stack_delete_complete` waiter for
the `LambdaFunction` stack raises `WaiterError` (deletion timeout). -/
def envDeployDeleteTimeout : Env :=
  { envOk with waitDeleteOk := fun n => n != CF_STACKNAME_LAMBDA }

/-- Every call succeeds except that the `stack_create_complete` waiter for
the `BootstrapS3Bucket` stack raises `WaiterError` after its 12-attempt
budget (bootstrap poll timeout). -/
def envBootstrapTimeout : Env :=
  { envOk with waitCreateOk := fun n => n != CF_STACKNAME_BOOTSTRAP_S3 }

/-- Every call succeeds except that uploading `CreateS3Bucket.yaml` to the
bootstrap bucket raises a `ClientError`, and the delete waiter for the
`LambdaFunction` stack times out. -/
def envUploadFailAndDeleteTimeout : Env :=
  { envOk with
    uploadOutcome := fun b k =>
      if b = CF_BOOTSTRAP_S3_BUCKET_NAME ∧ k = CF_TEMPLATE_S3 then
        some (PyExn.clientError "AccessDenied" "Access Denied")
      else none
    waitDeleteOk := fun n => n != CF_STACKNAME_LAMBDA }

/-- The `create_stack` call for `LambdaFunction` is rejected with error code
AlreadyExistsException (name collision); everything else succeeds. -/
def envDeployCollision : Env :=
  { envOk with
    createStackOutcome := fun n =>
      if n = CF_STACKNAME_LAMBDA then
        some (PyExn.clientError "AlreadyExistsException"
          "Stack [LambdaFunction] already exists")
      else none }

/-- The `create_stack` call for `LambdaFunction` is rejected with a
different error code but the very same free-text message; everything else
succeeds. -/
def envDeployOtherError : Env :=
  { envOk with
    createStackOutcome := fun n =>
      if n = CF_STACKNAME_LAMBDA then
        some (PyExn.clientError "LimitExceededException"
          "Stack [LambdaFunction] already exists")
      else none }

/-- Listing the bootstrap bucket raises `NoSuchBucket` (the bucket does not
exist, as after a partial or never-run create); everything else succeeds. -/
def envMissingBootstrapBucket : Env :=
  { envOk with
    listOutcome := fun b =>
      if b = CF_BOOTSTRAP_S3_BUCKET_NAME then
        some (PyExn.clientError "NoSuchBucket"
          "The specified bucket does not exist")
      else none }

/-- Prefix of the all-success teardown trace on `s3Two`, up to (excluding)
the first `delete_stack` request; used to instantiate C2. -/
def c2WitnessPrefix : List (Event × S3State) :=
  [(Event.printMsg "Emptying all buckets...", s3Two),
   (Event.listObjectsV2 CF_BOOTSTRAP_S3_BUCKET_NAME, s3Two),
   (Event.deleteObjects CF_BOOTSTRAP_S3_BUCKET_NAME ["CreateS3Bucket.yaml"], s3Two),
   (Event.listObjectsV2 CF_LAMBDA_S3_BUCKET_NAME,
     { bootstrapKeys := [], lambdaKeys := ["CreateLambdaFunction.yaml", "test.zip"] }),
   (Event.deleteObjects CF_LAMBDA_S3_BUCKET_NAME ["CreateLambdaFunction.yaml", "test.zip"],
     { bootstrapKeys := [], lambdaKeys := ["CreateLambdaFunction.yaml", "test.zip"] }),
   (Event.printMsg "Deleting CloudFormation stack: LambdaFunction...", s3Empty)]

/-- The rest of that trace after the first `delete_stack` request. -/
def c2WitnessSuffix : List (Event × S3State) :=
  [(Event.waitDelete CF_STACKNAME_LAMBDA 5 24, s3Empty),
   (Event.printMsg "Deleting CloudFormation stack: LambdaS3Bucket...", s3Empty),
   (Event.deleteStackReq CF_STACKNAME_LAMBDA_S3, s3Empty),
   (Event.waitDelete CF_STACKNAME_LAMBDA_S3 5 12, s3Empty),
   (Event.printMsg "Deleting CloudFormation stack: BootstrapS3Bucket...", s3Empty),
   (Event.deleteStackReq CF_STACKNAME_BOOTSTRAP_S3, s3Empty),
   (Event.waitDelete CF_STACKNAME_BOOTSTRAP_S3 5 12, s3Empty)]

/-- Per-event check used for C7: every `create_stack` call carries exactly
the CAPABILITY_IAM acknowledgement and every create wait uses the
24-attempt budget. -/
def deployCreateCallOk : Event → Bool
  | Event.createStack _ _ caps => caps == ["CAPABILITY_IAM"]
  | Event.waitCreate _ _ m => m == 24
  | _ => true

/-- Per-event check used for C7: every create wait uses the 12-attempt
budget. -/
def storageCreateWaitOk : Event → Bool
  | Event.waitCreate _ _ m => m == 12
  | _ => true

/-- The bootstrap/build stage's intended service-call sequence, transcribed
from spec section 4.4 for the refinement claim C8: (a) create the bootstrap
storage stack from an inline template body, wait; (b) upload the
build-stage template into the bootstrap bucket; (c) create the build
storage stack via a remote template URL pointing at that object, wait;
(d) upload the deploy-stage template into the build bucket. -/
def bootstrapSpecCalls : List Event :=
  [Event.createStack CF_STACKNAME_BOOTSTRAP_S3
     (TemplateSource.body (formatBootstrapTemplate CF_BOOTSTRAP_S3_BUCKET_NAME)) [],
   Event.waitCreate CF_STACKNAME_BOOTSTRAP_S3 5 12,
   Event.uploadFile CF_TEMPLATE_S3 CF_BOOTSTRAP_S3_BUCKET_NAME CF_TEMPLATE_S3,
   Event.createStack CF_STACKNAME_LAMBDA_S3
     (TemplateSource.url ("https://s3.amazonaws.com/" ++
        CF_BOOTSTRAP_S3_BUCKET_NAME ++ "/" ++ CF_TEMPLATE_S3)) [],
   Event.waitCreate CF_STACKNAME_LAMBDA_S3 5 12,
   Event.uploadFile CF_TEMPLATE_LAMBDA CF_LAMBDA_S3_BUCKET_NAME CF_TEMPLATE_LAMBDA]

----------------------------------------------------------------------
-- Supporting lemmas

theorem removeKeys_self (l : List String) : removeKeys l l = [] := by
  unfold removeKeys
  rw [List.filter_eq_nil_iff]
  intro a ha
  simp [ha]

theorem mem_right_of_split {α : Type} {A B t1 t2 : List α} {x : α}
    (h : A ++ B = t1 ++ x :: t2) (hx : x ∉ A) :
    x ∈ B ∧ ∀ q ∈ t2, q ∈ B := by
  rcases List.append_eq_append_iff.mp h with ⟨a, ha1, ha2⟩ | ⟨c, hc1, hc2⟩
  · subst ha2
    exact ⟨List.mem_append_right a (List.mem_cons_self x t2),
      fun q hq => List.mem_append_right a (List.mem_cons_of_mem x hq)⟩
  · cases c with
    | nil =>
        simp only [List.nil_append] at hc2
        subst hc2
        exact ⟨List.mem_cons_self x t2, fun q hq => List.mem_cons_of_mem x hq⟩
    | cons y c =>
        simp only [List.cons_append, List.cons.injEq] at hc2
        obtain ⟨rfl, -⟩ := hc2
        exact absurd (by rw [hc1]; exact List.mem_append_right t1 (List.mem_cons_self _ _)) hx

theorem mem_stackDeleteReqs {n : String} {st : S3State} {tr : List (Event × S3State)}
    (h : (Event.deleteStackReq n, st) ∈ tr) : n ∈ stackDeleteReqs tr :=
  List.mem_filterMap.mpr ⟨(Event.deleteStackReq n, st), h, rfl⟩

theorem delete_cf_stack_state (env : Env) (s : S3State) (n : String)
    (d m : Nat) (v : Bool) : (delete_cf_stack env s n d m v).state = s := by
  unfold delete_cf_stack
  cases env.deleteReqOutcome n <;> cases v <;> by_cases hw : env.waitDeleteOk n <;>
    simp [hw]

theorem delete_cf_stack_mem (env : Env) (s : S3State) (n : String)
    (d m : Nat) (v : Bool) :
    ∀ p ∈ (delete_cf_stack env s n d m v).trace, p.2 = s ∧ isBucketOp p.1 = false := by
  unfold delete_cf_stack
  cases env.deleteReqOutcome n <;> cases v <;> by_cases hw : env.waitDeleteOk n <;>
    simp [hw, isBucketOp]

theorem delete_stacks_phase_mem (env : Env) (s : S3State) :
    ∀ p ∈ (delete_stacks_phase env s).trace, p.2 = s ∧ isBucketOp p.1 = false := by
  intro p hp
  unfold delete_stacks_phase at hp
  simp only [delete_cf_stack_state] at hp
  repeat' split at hp
  all_goals
    (try rcases List.mem_append.mp hp with hp | hp) <;>
    (try rcases List.mem_append.mp hp with hp | hp) <;>
    exact delete_cf_stack_mem _ _ _ _ _ _ p hp

theorem empty_bootstrap_state (env : Env) (s : S3State) (r : Int)
    (h : (empty_bootstrap env s).res = Except.ok r) :
    (empty_bootstrap env s).state.bootstrapKeys = []
  ∧ (empty_bootstrap env s).state.lambdaKeys = s.lambdaKeys := by
  unfold empty_bootstrap at h ⊢
  cases hl : env.listOutcome CF_BOOTSTRAP_S3_BUCKET_NAME with
  | some e => simp [hl] at h
  | none =>
      simp only [hl] at h ⊢
      by_cases hk : s.bootstrapKeys = []
      · simp [hk]
      · simp only [if_neg hk] at h ⊢
        cases hd : env.deleteObjectsOutcome CF_BOOTSTRAP_S3_BUCKET_NAME s.bootstrapKeys with
        | some e => simp [hd] at h
        | none => simp [hd, removeKeys_self]

theorem empty_lambda_state (env : Env) (s : S3State) (r : Int)
    (h : (empty_lambda env s).res = Except.ok r) :
    (empty_lambda env s).state.lambdaKeys = []
  ∧ (empty_lambda env s).state.bootstrapKeys = s.bootstrapKeys := by
  unfold empty_lambda at h ⊢
  cases hl : env.listOutcome CF_LAMBDA_S3_BUCKET_NAME with
  | some e => simp [hl] at h
  | none =>
      simp only [hl] at h ⊢
      by_cases hk : s.lambdaKeys = []
      · simp [hk]
      · simp only [if_neg hk] at h ⊢
        cases hd : env.deleteObjectsOutcome CF_LAMBDA_S3_BUCKET_NAME s.lambdaKeys with
        | some e => simp [hd] at h
        | none => simp [hd, removeKeys_self]

theorem empty_buckets_state (env : Env) (s : S3State) (r : Int)
    (h : (empty_buckets env s).res = Except.ok r) :
    (empty_buckets env s).state.bootstrapKeys = []
  ∧ (empty_buckets env s).state.lambdaKeys = [] := by
  unfold empty_buckets at h ⊢
  cases hb : (empty_bootstrap env s).res with
  | error e => simp [hb] at h
  | ok r1 =>
      simp only [hb] at h ⊢
      obtain ⟨hl1, hl2⟩ := empty_lambda_state env (empty_bootstrap env s).state r h
      obtain ⟨hb1, hb2⟩ := empty_bootstrap_state env s r1 hb
      exact ⟨by rw [hl2, hb1], hl1⟩

theorem empty_bootstrap_noDel (env : Env) (s : S3State) :
    stackDeleteReqs (empty_bootstrap env s).trace = []
  ∧ errorPrints (empty_bootstrap env s).trace = [] := by
  unfold empty_bootstrap
  cases hl : env.listOutcome CF_BOOTSTRAP_S3_BUCKET_NAME <;>
    by_cases hk : s.bootstrapKeys = [] <;>
    cases hd : env.deleteObjectsOutcome CF_BOOTSTRAP_S3_BUCKET_NAME s.bootstrapKeys <;>
    simp [hl, hk, hd, stackDeleteReqs, errorPrints]

theorem empty_lambda_noDel (env : Env) (s : S3State) :
    stackDeleteReqs (empty_lambda env s).trace = []
  ∧ errorPrints (empty_lambda env s).trace = [] := by
  unfold empty_lambda
  cases hl : env.listOutcome CF_LAMBDA_S3_BUCKET_NAME <;>
    by_cases hk : s.lambdaKeys = [] <;>
    cases hd : env.deleteObjectsOutcome CF_LAMBDA_S3_BUCKET_NAME s.lambdaKeys <;>
    simp [hl, hk, hd, stackDeleteReqs, errorPrints]

theorem stackDeleteReqs_append (l1 l2 : List (Event × S3State)) :
    stackDeleteReqs (l1 ++ l2) = stackDeleteReqs l1 ++ stackDeleteReqs l2 :=
  List.filterMap_append l1 l2 _

theorem errorPrints_append (l1 l2 : List (Event × S3State)) :
    errorPrints (l1 ++ l2) = errorPrints l1 ++ errorPrints l2 :=
  List.filterMap_append l1 l2 _

theorem stackDeleteReqs_print (m : String) (st : S3State) :
    stackDeleteReqs [(Event.printMsg m, st)] = [] := rfl

theorem errorPrints_emptying (st : S3State) :
    errorPrints [(Event.printMsg "Emptying all buckets...", st)] = [] := rfl

theorem empty_buckets_noDel (env : Env) (s : S3State) :
    stackDeleteReqs (empty_buckets env s).trace = []
  ∧ errorPrints (empty_buckets env s).trace = [] := by
  unfold empty_buckets
  cases hb : (empty_bootstrap env s).res <;>
    simp only [hb, stackDeleteReqs_append, errorPrints_append, stackDeleteReqs_print,
      errorPrints_emptying,
      (empty_bootstrap_noDel env s).1, (empty_bootstrap_noDel env s).2,
      (empty_lambda_noDel env (empty_bootstrap env s).state).1,
      (empty_lambda_noDel env (empty_bootstrap env s).state).2,
      List.append_nil, List.nil_append, and_self]

theorem teardown_trace_ok (env : Env) (s : S3State) (r : Int)
    (h : (empty_buckets env s).res = Except.ok r) :
    (delete_cloudformation_stacks env s).trace
      = (empty_buckets env s).trace
        ++ (delete_stacks_phase env (empty_buckets env s).state).trace := by
  unfold delete_cloudformation_stacks
  simp only [h]

theorem teardown_error (env : Env) (s : S3State) (e : PyExn)
    (h : (empty_buckets env s).res = Except.error e) :
    (delete_cloudformation_stacks env s).res = Except.error e
  ∧ (delete_cloudformation_stacks env s).trace = (empty_buckets env s).trace := by
  unfold delete_cloudformation_stacks
  simp [h]

theorem listCallsFor_append (b : String) (l1 l2 : List (Event × S3State)) :
    listCallsFor b (l1 ++ l2) = listCallsFor b l1 + listCallsFor b l2 := by
  unfold listCallsFor
  rw [List.filterMap_append, List.length_append]

theorem deleteObjectsFor_append (b : String) (l1 l2 : List (Event × S3State)) :
    deleteObjectsFor b (l1 ++ l2) = deleteObjectsFor b l1 ++ deleteObjectsFor b l2 :=
  List.filterMap_append l1 l2 _

theorem listCallsFor_cons_print (b m : String) (st : S3State) (tr : List (Event × S3State)) :
    listCallsFor b ((Event.printMsg m, st) :: tr) = listCallsFor b tr := rfl

theorem deleteObjectsFor_cons_print (b m : String) (st : S3State)
    (tr : List (Event × S3State)) :
    deleteObjectsFor b ((Event.printMsg m, st) :: tr) = deleteObjectsFor b tr := rfl

theorem no_bucket_ops_counts {tr : List (Event × S3State)}
    (h : ∀ p ∈ tr, isBucketOp p.1 = false) (b : String) :
    listCallsFor b tr = 0 ∧ deleteObjectsFor b tr = [] := by
  constructor
  · unfold listCallsFor
    rw [List.length_eq_zero, List.filterMap_eq_nil_iff]
    intro p hp
    have hb := h p hp
    rcases p with ⟨e, st⟩
    cases e <;> simp_all [isBucketOp]
  · unfold deleteObjectsFor
    rw [List.filterMap_eq_nil_iff]
    intro p hp
    have hb := h p hp
    rcases p with ⟨e, st⟩
    cases e <;> simp_all [isBucketOp]

theorem empty_bootstrap_ok (env : Env) (s : S3State)
    (h1 : env.listOutcome CF_BOOTSTRAP_S3_BUCKET_NAME = none)
    (h2 : env.deleteObjectsOutcome CF_BOOTSTRAP_S3_BUCKET_NAME s.bootstrapKeys = none) :
    (empty_bootstrap env s).res = Except.ok 0 := by
  unfold empty_bootstrap
  simp only [h1]
  split
  · rfl
  · simp only [h2]

theorem empty_bootstrap_obs (env : Env) (s : S3State)
    (h1 : env.listOutcome CF_BOOTSTRAP_S3_BUCKET_NAME = none) :
    listCallsFor CF_BOOTSTRAP_S3_BUCKET_NAME (empty_bootstrap env s).trace = 1
  ∧ listCallsFor CF_LAMBDA_S3_BUCKET_NAME (empty_bootstrap env s).trace = 0
  ∧ deleteObjectsFor CF_BOOTSTRAP_S3_BUCKET_NAME (empty_bootstrap env s).trace
      = (if s.bootstrapKeys = [] then [] else [s.bootstrapKeys])
  ∧ deleteObjectsFor CF_LAMBDA_S3_BUCKET_NAME (empty_bootstrap env s).trace = [] := by
  unfold empty_bootstrap
  simp only [h1]
  by_cases hk : s.bootstrapKeys = [] <;>
    cases hd : env.deleteObjectsOutcome CF_BOOTSTRAP_S3_BUCKET_NAME s.bootstrapKeys <;>
    simp [hk, hd, listCallsFor, deleteObjectsFor,
      CF_BOOTSTRAP_S3_BUCKET_NAME, CF_LAMBDA_S3_BUCKET_NAME]

theorem empty_lambda_obs (env : Env) (s : S3State)
    (h3 : env.listOutcome CF_LAMBDA_S3_BUCKET_NAME = none) :
    listCallsFor CF_BOOTSTRAP_S3_BUCKET_NAME (empty_lambda env s).trace = 0
  ∧ listCallsFor CF_LAMBDA_S3_BUCKET_NAME (empty_lambda env s).trace = 1
  ∧ deleteObjectsFor CF_BOOTSTRAP_S3_BUCKET_NAME (empty_lambda env s).trace = []
  ∧ deleteObjectsFor CF_LAMBDA_S3_BUCKET_NAME (empty_lambda env s).trace
      = (if s.lambdaKeys = [] then [] else [s.lambdaKeys]) := by
  unfold empty_lambda
  simp only [h3]
  by_cases hk : s.lambdaKeys = [] <;>
    cases hd : env.deleteObjectsOutcome CF_LAMBDA_S3_BUCKET_NAME s.lambdaKeys <;>
    simp [hk, hd, listCallsFor, deleteObjectsFor,
      CF_BOOTSTRAP_S3_BUCKET_NAME, CF_LAMBDA_S3_BUCKET_NAME]

theorem empty_buckets_obs (env : Env) (s : S3State)
    (h1 : env.listOutcome CF_BOOTSTRAP_S3_BUCKET_NAME = none)
    (h2 : env.deleteObjectsOutcome CF_BOOTSTRAP_S3_BUCKET_NAME s.bootstrapKeys = none)
    (h3 : env.listOutcome CF_LAMBDA_S3_BUCKET_NAME = none) :
    listCallsFor CF_BOOTSTRAP_S3_BUCKET_NAME (empty_buckets env s).trace = 1
  ∧ listCallsFor CF_LAMBDA_S3_BUCKET_NAME (empty_buckets env s).trace = 1
  ∧ deleteObjectsFor CF_BOOTSTRAP_S3_BUCKET_NAME (empty_buckets env s).trace
      = (if s.bootstrapKeys = [] then [] else [s.bootstrapKeys])
  ∧ deleteObjectsFor CF_LAMBDA_S3_BUCKET_NAME (empty_buckets env s).trace
      = (if s.lambdaKeys = [] then [] else [s.lambdaKeys]) := by
  have hres := empty_bootstrap_ok env s h1 h2
  have hkeys := (empty_bootstrap_state env s 0 hres).2
  have hboot := empty_bootstrap_obs env s h1
  have hlam := empty_lambda_obs env (empty_bootstrap env s).state h3
  rw [hkeys] at hlam
  unfold empty_buckets
  simp only [hres]
  simp only [List.cons_append, List.nil_append, List.append_assoc,
    listCallsFor_cons_print, deleteObjectsFor_cons_print,
    listCallsFor_append, deleteObjectsFor_append,
    hboot.1, hboot.2.1, hboot.2.2.1, hboot.2.2.2,
    hlam.1, hlam.2.1, hlam.2.2.1, hlam.2.2.2,
    List.append_nil, Nat.add_zero, Nat.zero_add, and_self]

----------------------------------------------------------------------
-- Claim theorems

/-- C1, evaluation at the failing input.  The claim states that when a stack
deletion fails the teardown "returns failure".  Running the teardown where
the `LambdaFunction` deletion times out: no subsequent deletion is attempted
(the only `delete_stack` request issued is for `LambdaFunction`), but the
run does not return -1 — the `WaiterError` handler evaluates
`'ERROR: ' + e`, which raises `TypeError`, and that exception propagates out
of `delete_cloudformation_stacks` uncaught, with no error message printed. -/
theorem c1_teardown_delete_failure_eval :
    (delete_cloudformation_stacks envDeployDeleteTimeout s3Two).res
        = Except.error PyExn.typeError
  ∧ stackDeleteReqs (delete_cloudformation_stacks envDeployDeleteTimeout s3Two).trace
        = [CF_STACKNAME_LAMBDA]
  ∧ errorPrints (delete_cloudformation_stacks envDeployDeleteTimeout s3Two).trace = [] :=
  ⟨rfl, rfl, rfl⟩

/-- C3, evaluation at the failing input.  When the bootstrap stack's
`stack_create_complete` poll exhausts its attempt budget, `create_s3_bucket`
does not return the failure result -1: its `WaiterError` handler evaluates
`'ERROR: ' + e` and raises `TypeError`.  The deploy stage is still never
invoked (no `create_stack` call for `LambdaFunction`, no upload of
`test.zip`) and the process still terminates with a failure status, but via
an uncaught exception rather than the documented message-and-return path. -/
theorem c3_bootstrap_poll_timeout_eval :
    (create_s3_bucket envBootstrapTimeout s3Empty).res = Except.error PyExn.typeError
  ∧ (main_run envBootstrapTimeout s3Empty false).1 = ProcResult.crashed PyExn.typeError
  ∧ failureExit (main_run envBootstrapTimeout s3Empty false).1 = true
  ∧ createStackCallsFor CF_STACKNAME_LAMBDA (main_run envBootstrapTimeout s3Empty false).2 = 0
  ∧ uploadCallsFor CF_LAMBDA_SOURCE (main_run envBootstrapTimeout s3Empty false).2 = 0
  ∧ errorPrints (main_run envBootstrapTimeout s3Empty false).2 = [] :=
  ⟨rfl, rfl, rfl, rfl, rfl, rfl⟩

/-- C4, evaluation at failing inputs.  The claim states that every component
failure emits a descriptive error message and makes the enclosing function
return the failure result.  At an upload failure in `create_s3_bucket` and
at a stack-delete timeout in `delete_cf_stack`, the code instead raises
`TypeError` from `'ERROR: ' + e`: no message is printed and no -1 is
returned; the exception propagates. -/
theorem c4_failure_reporting_eval :
    (create_s3_bucket envUploadFailAndDeleteTimeout s3Empty).res
        = Except.error PyExn.typeError
  ∧ errorPrints (create_s3_bucket envUploadFailAndDeleteTimeout s3Empty).trace = []
  ∧ (delete_cf_stack envUploadFailAndDeleteTimeout s3Empty CF_STACKNAME_LAMBDA 5 24 true).res
        = Except.error PyExn.typeError
  ∧ errorPrints
      (delete_cf_stack envUploadFailAndDeleteTimeout s3Empty CF_STACKNAME_LAMBDA 5 24 true).trace
        = [] :=
  ⟨rfl, rfl, rfl, rfl⟩

/-- C6, evaluation.  With the same free-text provider message, an error
code of AlreadyExistsException makes `create_lambda` print the short
provider message and return -1, while any other error code sends the
handler into `'ERROR: ' + e`, which raises `TypeError`: the full provider
message is never surfaced and no failure result is returned.  So the
collision classification is indeed by error code, not message text, but the
claim's clause about all other provider errors is false in the code. -/
theorem c6_collision_classification_eval :
    (create_lambda envDeployCollision s3Empty).res = Except.ok (-1)
  ∧ errorPrints (create_lambda envDeployCollision s3Empty).trace
        = ["ERROR: Stack [LambdaFunction] already exists"]
  ∧ (create_lambda envDeployOtherError s3Empty).res = Except.error PyExn.typeError
  ∧ errorPrints (create_lambda envDeployOtherError s3Empty).trace = [] :=
  ⟨rfl, rfl, rfl, rfl⟩

/-- C5: a `delete_cf_stack` call against a stack name for which no stack
exists returns success 0.  The provider guarantees (spec section 4.3) that
`delete_stack` on an absent stack returns without raising and that the
`stack_delete_complete` waiter then succeeds; these two guarantees are the
hypotheses.  Under them the function returns 0 and the only service calls it
issues are the delete request and the delete wait — no existence check. -/
theorem c5_delete_absent_stack_idempotent (env : Env) (s : S3State) (name : String)
    (h1 : env.deleteReqOutcome name = none)
    (h2 : env.waitDeleteOk name = true) :
    (delete_cf_stack env s name 5 12 true).res = Except.ok 0
  ∧ awsEvents (delete_cf_stack env s name 5 12 true).trace
        = [Event.deleteStackReq name, Event.waitDelete name 5 12] := by
  unfold delete_cf_stack awsEvents
  rw [h1, h2]
  simp

/-- Witness for C5 at a concrete absent stack name. -/
theorem c5_witness :
    (delete_cf_stack envOk s3Empty CF_STACKNAME_BOOTSTRAP_S3 5 12 true).res = Except.ok 0
  ∧ awsEvents (delete_cf_stack envOk s3Empty CF_STACKNAME_BOOTSTRAP_S3 5 12 true).trace
        = [Event.deleteStackReq CF_STACKNAME_BOOTSTRAP_S3,
           Event.waitDelete CF_STACKNAME_BOOTSTRAP_S3 5 12] :=
  c5_delete_absent_stack_idempotent envOk s3Empty CF_STACKNAME_BOOTSTRAP_S3 rfl rfl

/-- C2: for every teardown run, whenever a `delete_stack` request appears in
the trace, the bucket state paired with it (the bucket contents at the
moment the request is issued) has both object-key sets empty, and no
bucket-listing or bucket-emptying operation occurs anywhere after it — so
the emptying of both storage buckets happens entirely before any of the
stack-deletion requests. -/
theorem c2_buckets_empty_before_deletions (env : Env) (s0 : S3State)
    (t1 t2 : List (Event × S3State)) (n : String) (st : S3State)
    (h : (delete_cloudformation_stacks env s0).trace
          = t1 ++ (Event.deleteStackReq n, st) :: t2) :
    st.bootstrapKeys = [] ∧ st.lambdaKeys = []
  ∧ ∀ q ∈ t2, isBucketOp q.1 = false := by
  cases hres : (empty_buckets env s0).res with
  | error e =>
      exfalso
      have htr := (teardown_error env s0 e hres).2
      rw [htr] at h
      have hmem : (Event.deleteStackReq n, st) ∈ (empty_buckets env s0).trace := by
        rw [h]; exact List.mem_append_right t1 (List.mem_cons_self _ _)
      have hn := mem_stackDeleteReqs hmem
      rw [(empty_buckets_noDel env s0).1] at hn
      exact List.not_mem_nil n hn
  | ok r =>
      have htr := teardown_trace_ok env s0 r hres
      rw [htr] at h
      have hxA : (Event.deleteStackReq n, st) ∉ (empty_buckets env s0).trace := by
        intro hmem
        have hn := mem_stackDeleteReqs hmem
        rw [(empty_buckets_noDel env s0).1] at hn
        exact List.not_mem_nil n hn
      obtain ⟨hxB, ht2B⟩ := mem_right_of_split h hxA
      have hphase := delete_stacks_phase_mem env (empty_buckets env s0).state
      obtain ⟨hst, -⟩ := hphase _ hxB
      obtain ⟨hb, hl⟩ := empty_buckets_state env s0 r hres
      refine ⟨?_, ?_, ?_⟩
      · rw [show st = (empty_buckets env s0).state from hst]; exact hb
      · rw [show st = (empty_buckets env s0).state from hst]; exact hl
      · intro q hq
        exact (hphase q (ht2B q hq)).2

/-- Witness for C2: the all-success teardown on buckets holding the usual
artifacts, split at its first `delete_stack` request. -/
theorem c2_witness :
    s3Empty.bootstrapKeys = [] ∧ s3Empty.lambdaKeys = []
  ∧ ∀ q ∈ c2WitnessSuffix, isBucketOp q.1 = false :=
  c2_buckets_empty_before_deletions envOk s3Two c2WitnessPrefix c2WitnessSuffix
    CF_STACKNAME_LAMBDA s3Empty rfl

/-- C10: the teardown's bucket-emptying block has no error handling: if
listing or batch-deleting a bucket's objects raises, the exception
propagates out of `delete_cloudformation_stacks` uncaught, no
`delete_stack` request is ever issued, and no error message is printed
(the run does not go through the message-and-return-(-1) path). -/
theorem c10_emptying_unhandled (env : Env) (s : S3State) (e : PyExn)
    (h : (empty_buckets env s).res = Except.error e) :
    (delete_cloudformation_stacks env s).res = Except.error e
  ∧ stackDeleteReqs (delete_cloudformation_stacks env s).trace = []
  ∧ errorPrints (delete_cloudformation_stacks env s).trace = [] := by
  obtain ⟨h1, h2⟩ := teardown_error env s e h
  exact ⟨h1, by rw [h2]; exact (empty_buckets_noDel env s).1,
         by rw [h2]; exact (empty_buckets_noDel env s).2⟩

/-- Witness for C10: listing the bootstrap bucket raises NoSuchBucket. -/
theorem c10_witness :
    (delete_cloudformation_stacks envMissingBootstrapBucket s3Two).res
        = Except.error (PyExn.clientError "NoSuchBucket" "The specified bucket does not exist")
  ∧ stackDeleteReqs (delete_cloudformation_stacks envMissingBootstrapBucket s3Two).trace = []
  ∧ errorPrints (delete_cloudformation_stacks envMissingBootstrapBucket s3Two).trace = [] :=
  c10_emptying_unhandled envMissingBootstrapBucket s3Two
    (PyExn.clientError "NoSuchBucket" "The specified bucket does not exist") rfl

/-- C7: in every run, every stack-creation call the Deploy stage issues
declares Capabilities=['CAPABILITY_IAM'] and every create-completion wait
it issues uses MaxAttempts=24, while every create-completion wait the
Bootstrap/Build stage issues uses MaxAttempts=12, with 12 strictly smaller
than 24; and on the all-success run the Deploy stage does issue that
creation call and that wait. -/
theorem c7_deploy_capabilities_and_budget (env : Env) (s : S3State) :
    ((create_lambda env s).trace.all (fun p => deployCreateCallOk p.1) = true)
  ∧ ((create_s3_bucket env s).trace.all (fun p => storageCreateWaitOk p.1) = true)
  ∧ 12 < 24
  ∧ Event.createStack CF_STACKNAME_LAMBDA
      (TemplateSource.url ("https://s3.amazonaws.com/" ++ CF_LAMBDA_S3_BUCKET_NAME ++
        "/" ++ CF_TEMPLATE_LAMBDA)) ["CAPABILITY_IAM"]
        ∈ awsEvents (create_lambda envOk s3Empty).trace
  ∧ Event.waitCreate CF_STACKNAME_LAMBDA 5 24
        ∈ awsEvents (create_lambda envOk s3Empty).trace := by
  refine ⟨?_, ?_, by norm_num, by decide, by decide⟩
  · unfold create_lambda
    cases env.uploadOutcome CF_LAMBDA_S3_BUCKET_NAME CF_LAMBDA_SOURCE with
    | some e => cases e <;> rfl
    | none =>
        cases env.createStackOutcome CF_STACKNAME_LAMBDA with
        | some e => cases e <;> dsimp only <;> first | rfl | (split <;> rfl)
        | none => dsimp only; split <;> rfl
  · unfold create_s3_bucket
    cases env.createStackOutcome CF_STACKNAME_BOOTSTRAP_S3 with
    | some e => cases e <;> dsimp only <;> first | rfl | (split <;> rfl)
    | none =>
        dsimp only
        split
        · cases env.uploadOutcome CF_BOOTSTRAP_S3_BUCKET_NAME CF_TEMPLATE_S3 with
          | some e => cases e <;> rfl
          | none =>
              cases env.createStackOutcome CF_STACKNAME_LAMBDA_S3 with
              | some e => cases e <;> dsimp only <;> first | rfl | (split <;> rfl)
              | none =>
                  dsimp only
                  split
                  · cases env.uploadOutcome CF_LAMBDA_S3_BUCKET_NAME CF_TEMPLATE_LAMBDA with
                    | some e => cases e <;> rfl
                    | none => rfl
                  · rfl
        · rfl

/-- C8: in every run, the service calls `create_s3_bucket` issues form a
prefix of the intended sequence (a) create bootstrap stack from the inline
template body, wait, (b) upload the build-stage template into the bootstrap
bucket, (c) create the build storage stack from the TemplateURL pointing at
that object, wait, (d) upload the deploy-stage template into the build
bucket — so a sub-step failure abandons the remaining steps and no
compensating (cleanup) call is ever issued — and a successful run issues
exactly the whole sequence. -/
theorem c8_bootstrap_sequence (env : Env) (s : S3State) :
    (∃ rest, bootstrapSpecCalls = awsEvents (create_s3_bucket env s).trace ++ rest)
  ∧ ((create_s3_bucket env s).res = Except.ok 0 →
      awsEvents (create_s3_bucket env s).trace = bootstrapSpecCalls) := by
  unfold create_s3_bucket
  cases env.createStackOutcome CF_STACKNAME_BOOTSTRAP_S3 with
  | some e =>
      cases e <;> dsimp only <;> first
        | exact ⟨⟨bootstrapSpecCalls.drop 1, rfl⟩, fun hr => Except.noConfusion hr⟩
        | (split
           · exact ⟨⟨bootstrapSpecCalls.drop 1, rfl⟩, fun hr => by simp at hr⟩
           · exact ⟨⟨bootstrapSpecCalls.drop 1, rfl⟩, fun hr => Except.noConfusion hr⟩)
  | none =>
      dsimp only
      split
      · cases env.uploadOutcome CF_BOOTSTRAP_S3_BUCKET_NAME CF_TEMPLATE_S3 with
        | some e =>
            cases e <;> dsimp only <;>
              exact ⟨⟨bootstrapSpecCalls.drop 3, rfl⟩, fun hr => Except.noConfusion hr⟩
        | none =>
            cases env.createStackOutcome CF_STACKNAME_LAMBDA_S3 with
            | some e =>
                cases e <;> dsimp only <;> first
                  | exact ⟨⟨bootstrapSpecCalls.drop 4, rfl⟩, fun hr => Except.noConfusion hr⟩
                  | (split
                     · exact ⟨⟨bootstrapSpecCalls.drop 4, rfl⟩, fun hr => by simp at hr⟩
                     · exact ⟨⟨bootstrapSpecCalls.drop 4, rfl⟩, fun hr => Except.noConfusion hr⟩)
            | none =>
                dsimp only
                split
                · cases env.uploadOutcome CF_LAMBDA_S3_BUCKET_NAME CF_TEMPLATE_LAMBDA with
                  | some e =>
                      cases e <;> dsimp only <;>
                        exact ⟨⟨[], rfl⟩, fun hr => Except.noConfusion hr⟩
                  | none => exact ⟨⟨[], rfl⟩, fun _ => rfl⟩
                · exact ⟨⟨bootstrapSpecCalls.drop 5, rfl⟩, fun hr => Except.noConfusion hr⟩
      · exact ⟨⟨bootstrapSpecCalls.drop 2, rfl⟩, fun hr => Except.noConfusion hr⟩

/-- Witness for C8: the all-success run issues exactly the sequence. -/
theorem c8_witness :
    awsEvents (create_s3_bucket envOk s3Empty).trace = bootstrapSpecCalls :=
  (c8_bootstrap_sequence envOk s3Empty).2 rfl

/-- C9: provided the two listings and the bootstrap batch delete do not
raise, the teardown lists each bucket exactly once and issues, for each
bucket, exactly one batch `delete_objects` carrying exactly the listed key
set when that set is non-empty, and no `delete_objects` at all when it is
empty. -/
theorem c9_bucket_emptying_batches (env : Env) (s : S3State)
    (h1 : env.listOutcome CF_BOOTSTRAP_S3_BUCKET_NAME = none)
    (h2 : env.deleteObjectsOutcome CF_BOOTSTRAP_S3_BUCKET_NAME s.bootstrapKeys = none)
    (h3 : env.listOutcome CF_LAMBDA_S3_BUCKET_NAME = none) :
    listCallsFor CF_BOOTSTRAP_S3_BUCKET_NAME (delete_cloudformation_stacks env s).trace = 1
  ∧ listCallsFor CF_LAMBDA_S3_BUCKET_NAME (delete_cloudformation_stacks env s).trace = 1
  ∧ deleteObjectsFor CF_BOOTSTRAP_S3_BUCKET_NAME (delete_cloudformation_stacks env s).trace
      = (if s.bootstrapKeys = [] then [] else [s.bootstrapKeys])
  ∧ deleteObjectsFor CF_LAMBDA_S3_BUCKET_NAME (delete_cloudformation_stacks env s).trace
      = (if s.lambdaKeys = [] then [] else [s.lambdaKeys]) := by
  have hobs := empty_buckets_obs env s h1 h2 h3
  cases hres : (empty_buckets env s).res with
  | error e =>
      have htr := (teardown_error env s e hres).2
      rw [htr]
      exact hobs
  | ok r =>
      have htr := teardown_trace_ok env s r hres
      have hphase :=
        no_bucket_ops_counts
          (fun p hp => (delete_stacks_phase_mem env (empty_buckets env s).state p hp).2)
      rw [htr]
      simp only [listCallsFor_append, deleteObjectsFor_append,
        hobs.1, hobs.2.1, hobs.2.2.1, hobs.2.2.2,
        (hphase CF_BOOTSTRAP_S3_BUCKET_NAME).1, (hphase CF_BOOTSTRAP_S3_BUCKET_NAME).2,
        (hphase CF_LAMBDA_S3_BUCKET_NAME).1, (hphase CF_LAMBDA_S3_BUCKET_NAME).2,
        List.append_nil, Nat.add_zero, and_self]

/-- Witness for C9: all-success teardown, bootstrap bucket holding one key
and the build bucket two. -/
theorem c9_witness :
    listCallsFor CF_BOOTSTRAP_S3_BUCKET_NAME (delete_cloudformation_stacks envOk s3Two).trace = 1
  ∧ listCallsFor CF_LAMBDA_S3_BUCKET_NAME (delete_cloudformation_stacks envOk s3Two).trace = 1
  ∧ deleteObjectsFor CF_BOOTSTRAP_S3_BUCKET_NAME (delete_cloudformation_stacks envOk s3Two).trace
      = (if s3Two.bootstrapKeys = [] then [] else [s3Two.bootstrapKeys])
  ∧ deleteObjectsFor CF_LAMBDA_S3_BUCKET_NAME (delete_cloudformation_stacks envOk s3Two).trace
      = (if s3Two.lambdaKeys = [] then [] else [s3Two.lambdaKeys]) :=
  c9_bucket_emptying_batches envOk s3Two rfl rfl rfl

end CreateLambda
